import Mathlib

/-!
Shallow embedding of the ESG AutoScorer scoring engine (`src/main.py`) together
with proofs about its behaviour.

The semi-structured data flowing through the engine (parsed JSON payloads,
result dictionaries) is modelled by the `Json` type below.  Python dictionary
access, iteration and item assignment are modelled as `Except PyErr`
computations so that the exception behaviour of the source is visible.
Numeric scores are modelled by `ℚ` (the source uses floats; all claims under
verification involve exactly representable values).  The two external
capabilities (the pypdf text extraction and the generative-model call,
including `json.loads` on its response text) are passed in as function
arguments, mirroring the spec's treatment of them as collaborators.
-/

/-- JSON-like dynamic values: the payloads produced by `json.loads` and the
result dictionaries built by the engine. -/
inductive Json where
  | null
  | bool (b : Bool)
  | num (q : ℚ)
  | str (s : String)
  | arr (xs : List Json)
  | obj (kvs : List (String × Json))

/-- Python truthiness of a value (`bool(v)`), as used by the `or 0` guards. -/
def Json.truthy : Json → Bool
  | .null => false
  | .bool b => b
  | .num q => if q = 0 then false else true
  | .str "" => false
  | .str _ => true
  | .arr [] => false
  | .arr (_ :: _) => true
  | .obj [] => false
  | .obj (_ :: _) => true

/-- First-match lookup in an insertion-ordered key/value list (dict lookup). -/
def lookupKV : List (String × Json) → String → Option Json
  | [], _ => none
  | (k, v) :: rest, key => if k = key then some v else lookupKV rest key

/-- Dict item assignment `d[key] = v`: overwrite in place or append. -/
def setKV : List (String × Json) → String → Json → List (String × Json)
  | [], key, v => [(key, v)]
  | (k, w) :: rest, key, v =>
    if k = key then (k, v) :: rest else (k, w) :: setKV rest key v

/-- Pure field projection used in statements about result documents. -/
def Json.getField : Json → String → Option Json
  | .obj kvs, key => lookupKV kvs key
  | _, _ => none

/-- Python exceptions raised by the dynamic operations of the engine. -/
inductive PyErr where
  | typeError (m : String)
  | attributeError (m : String)

/-- `str(e)` on the exception, as interpolated into error messages. -/
def PyErr.msg : PyErr → String
  | .typeError m => m
  | .attributeError m => m

/-- `v.get(key, default)`: dicts look the key up, anything else raises
`AttributeError` (`.get` does not exist on non-dicts). -/
def Json.getKey : Json → String → Json → Except PyErr Json
  | .obj kvs, key, dflt => .ok ((lookupKV kvs key).getD dflt)
  | _, _, _ => .error (.attributeError "object has no attribute get")

/-- `for x in v`: lists yield their elements, strings their characters,
dicts their keys; other values raise `TypeError`. -/
def Json.iterate : Json → Except PyErr (List Json)
  | .arr xs => .ok xs
  | .str s => .ok (s.data.map (fun c => Json.str (String.mk [c])))
  | .obj kvs => .ok (kvs.map (fun kv => Json.str kv.1))
  | _ => .error (.typeError "object is not iterable")

/-- `v[key] = x`: item assignment succeeds on dicts and raises otherwise. -/
def Json.setItem : Json → String → Json → Except PyErr Json
  | .obj kvs, key, v => .ok (.obj (setKV kvs key v))
  | _, _, _ => .error (.typeError "object does not support item assignment")

/-- Round-half-to-even of a rational to an integer (Python `round`). -/
def roundHalfEven (q : ℚ) : ℤ :=
  let f := ⌊q⌋
  if q - f < 1 / 2 then f
  else if 1 / 2 < q - f then f + 1
  else if f % 2 = 0 then f else f + 1

/-- `round(x, 2)`: round to two decimal places. -/
def round2 (q : ℚ) : ℚ := (roundHalfEven (q * 100) : ℚ) / 100

/-- `next((item for item in items if item.get("id") == which), {})`: scan for
the first entry whose `id` field equals `which`, defaulting to the empty
dict.  Comparison of a non-string `id` with a string is Python `==`, which
is `False` without raising. -/
def find_breakdown (which : String) : List Json → Except PyErr Json
  | [] => .ok (.obj [])
  | item :: rest => do
    let idv ← item.getKey "id" .null
    match idv with
    | .str s => if s = which then .ok item else find_breakdown which rest
    | _ => find_breakdown which rest

/-- One summand `x.get(key, 0) or 0` inside the `sum(...)` calls: absent and
falsy values contribute 0, numbers contribute themselves, `True` contributes
1, and remaining truthy values make `sum` raise `TypeError`. -/
def value_for_sum (item : Json) (key : String) : Except PyErr ℚ := do
  let v ← item.getKey key (.num 0)
  let v := if v.truthy then v else Json.num 0
  match v with
  | .num q => .ok q
  | .bool b => .ok (if b then 1 else 0)
  | _ => .error (.typeError "unsupported operand type for +")

/-- `sum(x.get(key, 0) or 0 for x in items)`. -/
def sum_field : List Json → String → Except PyErr ℚ
  | [], _ => .ok 0
  | item :: rest, key => do
    let q ← value_for_sum item key
    let s ← sum_field rest key
    .ok (q + s)

/-- The flattened element stream of
`(c for s in sections for c in s.get("criteria", []))`. -/
def collect_criteria : List Json → Except PyErr (List Json)
  | [] => .ok []
  | s :: rest => do
    let cv ← s.getKey "criteria" (.arr [])
    let cs ← cv.iterate
    let others ← collect_criteria rest
    .ok (cs ++ others)

/-- The `try` body of `_calculate_final_scores` up to the value assigned to
`ai_data["totals"]`: locate the `"report"` and `"media"` breakdown items, sum
`score`/`max_score` over the report item's direct sections and over the
criteria one level below the media item's sections, scale by 60/40 with a
zero result for a non-positive maximum, and round everything to two decimal
places.  (The source evaluates each pure generator expression twice; the
duplicate evaluations are collapsed since they yield identical outcomes.) -/
def compute_totals_value (ai_data : Json) : Except PyErr Json := do
  let breakdownVal ← ai_data.getKey "breakdown" (.arr [])
  let breakdownItems ← breakdownVal.iterate
  let report_breakdown ← find_breakdown "report" breakdownItems
  let media_breakdown ← find_breakdown "media" breakdownItems
  let reportSectionsVal ← report_breakdown.getKey "sections" (.arr [])
  let reportSections ← reportSectionsVal.iterate
  let report_raw_score ← sum_field reportSections "score"
  let report_raw_max ← sum_field reportSections "max_score"
  let mediaSectionsVal ← media_breakdown.getKey "sections" (.arr [])
  let mediaSections ← mediaSectionsVal.iterate
  let mediaCriteria ← collect_criteria mediaSections
  let media_raw_score ← sum_field mediaCriteria "score"
  let media_raw_max ← sum_field mediaCriteria "max_score"
  let report_scaled : ℚ := if report_raw_max > 0 then report_raw_score / report_raw_max * 60 else 0
  let media_scaled : ℚ := if media_raw_max > 0 then media_raw_score / media_raw_max * 40 else 0
  .ok (Json.obj
    [("report", Json.num (round2 report_scaled)),
     ("media", Json.num (round2 media_scaled)),
     ("final", Json.num (round2 (report_scaled + media_scaled)))])

/-- The `try` body of `_calculate_final_scores` including the assignment
`ai_data["totals"] = {...}`. -/
def calculate_final_scores_body (ai_data : Json) : Except PyErr Json := do
  let totalsVal ← compute_totals_value ai_data
  ai_data.setItem "totals" totalsVal

/-- `_calculate_final_scores`: on any exception in the body, the handler
performs `ai_data["totals"] = None` (which itself raises when `ai_data` is
not a dict) and the (possibly updated) document is returned. -/
def calculate_final_scores (ai_data : Json) : Except PyErr Json :=
  match calculate_final_scores_body ai_data with
  | .ok updated => .ok updated
  | .error _ => ai_data.setItem "totals" Json.null

/-- Python whitespace characters recognised by `str.strip` / `str.split`. -/
def isPyWs (c : Char) : Bool :=
  c = ' ' || c = '\t' || c = '\n' || c = '\r' || c = '\x0b' || c = '\x0c'

/-- Boolean list-prefix test (used for `str.startswith` and `str.replace`). -/
def listIsPrefix : List Char → List Char → Bool
  | [], _ => true
  | _ :: _, [] => false
  | c :: cs, d :: ds => if c = d then listIsPrefix cs ds else false

/-- `s.startswith(pre)`. -/
def pyStartsWith (s pre : String) : Bool := listIsPrefix pre.data s.data

/-- Fuelled worker for `str.replace`: left-to-right, non-overlapping, the
replacement is not rescanned.  Each step consumes at least one character, so
fuel `l.length` makes the fuel-exhausted branch unreachable. -/
def replaceFuel (pat repl : List Char) : Nat → List Char → List Char
  | _, [] => []
  | 0, l => l
  | fuel + 1, c :: cs =>
    if listIsPrefix pat (c :: cs) then
      repl ++ replaceFuel pat repl fuel ((c :: cs).drop pat.length)
    else
      c :: replaceFuel pat repl fuel cs

/-- `s.replace(pat, repl)` for a non-empty pattern. -/
def pyReplace (l pat repl : List Char) : List Char := replaceFuel pat repl l.length l

/-- `s.strip()`: drop leading and trailing whitespace. -/
def pyStrip (l : List Char) : List Char :=
  ((l.dropWhile isPyWs).reverse.dropWhile isPyWs).reverse

/-- The cleaning step of `_parse_ai_response`:
`response_text.strip().replace("```json", "").replace("```", "")`. -/
def cleanResponseText (s : String) : String :=
  String.mk (pyReplace (pyReplace (pyStrip s.data) "```json".data []) "```".data [])

/-- `_parse_ai_response`: strip code fences and parse with `json.loads`.
`loads` stands for `json.loads`; its `.error` case is a `JSONDecodeError`
message.  No validation beyond JSON parsing is performed. -/
def parse_ai_response (loads : String → Except String Json) (response_text : String) :
    Except String Json :=
  loads (cleanResponseText response_text)

/-- The configured fallback chain. -/
def FALLBACK_MODELS : List String := ["gemini-1.5-flash-latest", "gemini-1.5-pro-latest"]

/-- One iteration of the fallback loop for a single model identifier.
`gen` stands for `genai.GenerativeModel(m).generate_content(prompt).text`
with the prompt fixed by the enclosing call; its `.error` case is the
`str(e)` of the raised exception.  The iteration fails with the recorded
`last_error` string when the service call raises, when the response text
fails JSON parsing, or when `_calculate_final_scores` itself raises. -/
def attempt_model (gen : String → Except String String) (loads : String → Except String Json)
    (model_name : String) : Except String Json :=
  match gen model_name with
  | .error e => .error e
  | .ok text =>
    match parse_ai_response loads text with
    | .error e => .error ("JSON 解析失敗 - " ++ e)
    | .ok ai_data =>
      match calculate_final_scores ai_data with
      | .ok result => .ok result
      | .error e => .error e.msg

/-- The degraded result dictionary returned when every model failed. -/
def all_failed_doc (company_name last_error : String) : Json :=
  Json.obj
    [("company", Json.str company_name),
     ("overview_comment", Json.str ("所有備案 AI 模型皆嘗試失敗。最終錯誤: " ++ last_error)),
     ("totals", Json.null),
     ("strengths", Json.obj []),
     ("improvements", Json.obj []),
     ("breakdown", Json.arr [])]

/-- The `for model_name in FALLBACK_MODELS` loop of
`call_gemini_for_scoring_sync`, instrumented with the list of model
identifiers actually attempted (in order): return on the first identifier
whose attempt succeeds, otherwise carry the attempt's error forward as
`last_error` and continue; when the list is exhausted return the degraded
dictionary carrying the most recent error. -/
def call_gemini_loop (gen : String → Except String String) (loads : String → Except String Json)
    (company_name : String) : List String → String → List String × Json
  | [], last_error => ([], all_failed_doc company_name last_error)
  | m :: rest, last_error =>
    match attempt_model gen loads m with
    | .ok result => ([m], result)
    | .error e =>
      let t := call_gemini_loop gen loads company_name rest e
      (m :: t.1, t.2)

/-- `call_gemini_for_scoring_sync` with its attempt trace. -/
def call_gemini_traced (gen : String → Except String String)
    (loads : String → Except String Json) (company_name : String) : List String × Json :=
  call_gemini_loop gen loads company_name FALLBACK_MODELS "未知的 AI 錯誤"

/-- `call_gemini_for_scoring_sync`: the result component of the traced loop. -/
def call_gemini_for_scoring_sync (gen : String → Except String String)
    (loads : String → Except String Json) (company_name : String) : Json :=
  (call_gemini_traced gen loads company_name).2

/-- Tokenise on whitespace runs, discarding empty tokens (`str.split()`).
The first argument accumulates the current token in reverse. -/
def splitWsAux : List Char → List Char → List (List Char)
  | cur, [] => if cur.isEmpty then [] else [cur.reverse]
  | cur, c :: cs =>
    if isPyWs c then
      if cur.isEmpty then splitWsAux [] cs else cur.reverse :: splitWsAux [] cs
    else
      splitWsAux (c :: cur) cs

/-- `sep.join(parts)` at the character-list level. -/
def joinChars (sep : List Char) : List (List Char) → List Char
  | [] => []
  | [x] => x
  | x :: y :: rest => x ++ sep ++ joinChars sep (y :: rest)

/-- The message returned by `extract_text_from_pdf_sync` when pypdf raises. -/
def pdf_read_error_message (filename : String) : String :=
  "錯誤：" ++ ("無法讀取 PDF 檔案 \x27" ++ filename ++ "\x27。檔案可能已損壞或格式不支援。")

/-- `extract_text_from_pdf_sync`.  `pdf_pages` stands for the pypdf capability
applied to the file bytes: on success the per-page `page.extract_text()`
results (`none` when a page yields `None`), on failure the raised exception.
On success the page texts are joined with spaces and whitespace-normalised;
on failure the in-band `"錯誤："`-prefixed message is returned. -/
def extract_text_from_pdf_sync (pdf_pages : Except String (List (Option String)))
    (filename : String) : String :=
  match pdf_pages with
  | .ok pages =>
    let text := joinChars [' '] (pages.map (fun p => (p.getD "").data))
    String.mk (joinChars [' '] (splitWsAux [] text))
  | .error _ => pdf_read_error_message filename

/-- The degraded result dictionary built by `process_single_file` when the
extracted text signals an extraction failure. -/
def degraded_doc (company_name overview : String) : Json :=
  Json.obj
    [("company", Json.str company_name),
     ("overview_comment", Json.str overview),
     ("totals", Json.null),
     ("strengths", Json.obj []),
     ("improvements", Json.obj []),
     ("breakdown", Json.arr [])]

/-- `process_single_file`, instrumented with the model-attempt trace: extract
the text, short-circuit to a degraded result when it carries the `"錯誤："`
sentinel (no model is invoked), otherwise run the fallback chain.  The
source's outer `except Exception` handler is unreachable here because every
stage is total. -/
def process_single_file_traced (pdf_pages : Except String (List (Option String)))
    (gen : String → Except String String) (loads : String → Except String Json)
    (filename company_name website_url : String) : List String × Json :=
  let pdf_text := extract_text_from_pdf_sync pdf_pages filename
  if pyStartsWith pdf_text "錯誤：" then
    ([], degraded_doc company_name pdf_text)
  else
    call_gemini_traced gen loads company_name

/-- `process_single_file`: the result component of the traced pipeline. -/
def process_single_file (pdf_pages : Except String (List (Option String)))
    (gen : String → Except String String) (loads : String → Except String Json)
    (filename company_name website_url : String) : Json :=
  (process_single_file_traced pdf_pages gen loads filename company_name website_url).2

/-- One uploaded file of the batch call; `α` is the type of the raw bytes. -/
structure UploadFile (α : Type) where
  contentType : String
  filename : String
  content : α
deriving DecidableEq

/-- One dispatched pipeline task (the argument tuple of `process_single_file`). -/
structure BatchTask (α : Type) where
  content : α
  filename : String
  company : String
  url : String
deriving DecidableEq

/-- A FastAPI `HTTPException` raised by the batch endpoint. -/
structure HTTPException where
  statusCode : Nat
  detail : String
deriving DecidableEq

/-- The task-building loop of `scoring_batch_endpoint`:
`for i, file in enumerate(files)`, skipping non-PDF files with the company
name and website URL looked up at the original index `i`. -/
def build_tasks_aux (company_names website_urls : List String) :
    Nat → List (UploadFile α) → List (BatchTask α)
  | _, [] => []
  | i, f :: rest =>
    if f.contentType = "application/pdf" then
      ⟨f.content, f.filename, company_names.getD i "", website_urls.getD i ""⟩ ::
        build_tasks_aux company_names website_urls (i + 1) rest
    else
      build_tasks_aux company_names website_urls (i + 1) rest

/-- The dispatched task list of `scoring_batch_endpoint`. -/
def build_tasks (files : List (UploadFile α)) (company_names website_urls : List String) :
    List (BatchTask α) :=
  build_tasks_aux company_names website_urls 0 files

/-- One pipeline run for a dispatched task.  `readPdf` maps file bytes to the
pypdf outcome, `genFor` is the generation capability for that document (its
response may depend on the document, company and URL through the prompt). -/
def run_pipeline (readPdf : α → Except String (List (Option String)))
    (genFor : BatchTask α → String → Except String String)
    (loads : String → Except String Json) (t : BatchTask α) : Json :=
  process_single_file (readPdf t.content) (genFor t) loads t.filename t.company t.url

/-- `scoring_batch_endpoint`: reject mismatched input lengths, build the task
list (dropping non-PDF files), reject an empty task list, then gather one
result per task.  `asyncio.gather` preserves the order of its argument
tasks regardless of completion order, so the fan-out/fan-in is modelled as
an index-aligned `map` over the task list. -/
def scoring_batch_endpoint (readPdf : α → Except String (List (Option String)))
    (genFor : BatchTask α → String → Except String String)
    (loads : String → Except String Json) (files : List (UploadFile α))
    (company_names website_urls : List String) : Except HTTPException (List Json) :=
  if ¬(files.length = company_names.length ∧ company_names.length = website_urls.length) then
    .error ⟨400, "檔案、公司名稱和網站 URL 的數量必須一致。"⟩
  else
    let tasks := build_tasks files company_names website_urls
    if tasks.isEmpty then
      .error ⟨400, "未提供任何有效的 PDF 檔案。"⟩
    else
      let results := tasks.map (run_pipeline readPdf genFor loads)
      if results.isEmpty then
        .error ⟨500, "所有檔案處理失敗，未產生任何結果。請檢查後端日誌。"⟩
      else
        .ok results

/-- The numeric totals produced for a structurally empty score document. -/
def zeroTotalsJson : Json :=
  Json.obj [("report", Json.num 0), ("media", Json.num 0), ("final", Json.num 0)]

/-- The aggregator's output on the empty dict payload. -/
def emptyTotalsDoc : Json := Json.obj [("totals", zeroTotalsJson)]

/-- A scored leaf of the canonical payload shape: a section (report side) or a
criterion (media side) with a `max_score` and an optional `score`. -/
def mkScored (score : Option ℚ) (max_score : ℚ) : Json :=
  Json.obj (("title", Json.str "t") :: ("max_score", Json.num max_score) ::
    (match score with
     | none => []
     | some q => [("score", Json.num q)]))

/-- A media-side section carrying a list of criteria. -/
def mkMediaSection (criteria : List (Option ℚ × ℚ)) : Json :=
  Json.obj [("title", Json.str "t"),
            ("criteria", Json.arr (criteria.map (fun p => mkScored p.1 p.2)))]

/-- The breakdown list of the canonical payload shape: a `"report"` item with
direct sections and a `"media"` item whose sections carry criteria. -/
def mkBreakdown (report_sections : List (Option ℚ × ℚ))
    (media_sections : List (List (Option ℚ × ℚ))) : Json :=
  Json.arr
    [Json.obj [("id", Json.str "report"),
               ("sections", Json.arr (report_sections.map (fun p => mkScored p.1 p.2)))],
     Json.obj [("id", Json.str "media"),
               ("sections", Json.arr (media_sections.map mkMediaSection))]]

/-- A score document of the canonical payload shape. -/
def mkScoreDoc (report_sections : List (Option ℚ × ℚ))
    (media_sections : List (List (Option ℚ × ℚ))) : Json :=
  Json.obj [("breakdown", mkBreakdown report_sections media_sections)]

/-- Specification-side raw sum of scores, absent scores counting as 0. -/
def rawScoreSum (l : List (Option ℚ × ℚ)) : ℚ := (l.map (fun p => p.1.getD 0)).sum

/-- Specification-side raw sum of maximal scores. -/
def rawMaxSum (l : List (Option ℚ × ℚ)) : ℚ := (l.map (fun p => p.2)).sum

/-- Specification-side scaling rule: `raw / max * weight`, 0 when the maximum
is not positive. -/
def weightedPart (raw mx weight : ℚ) : ℚ := if mx > 0 then raw / mx * weight else 0

/-- The numeric `score` field of a score-tree node, when present. -/
def scoreOf (j : Json) : Option ℚ :=
  match j.getField "score" with
  | some (.num q) => some q
  | _ => none

/-- The claim-level consistency relation at a criterion: when every
sub-criterion score is present, the criterion score equals their sum. -/
def criterionHolds (c : Json) : Bool :=
  match c.getField "sub_criteria" with
  | some (.arr subs) =>
    if subs.all (fun s => (scoreOf s).isSome) then
      match scoreOf c with
      | some q => decide (q = (subs.map (fun s => (scoreOf s).getD 0)).sum)
      | none => false
    else true
  | _ => true

/-- The claim-level consistency relation at a section. -/
def sectionHolds (s : Json) : Bool :=
  match s.getField "criteria" with
  | some (.arr crits) =>
    crits.all criterionHolds &&
      (if crits.all (fun c => (scoreOf c).isSome) then
        match scoreOf s with
        | some q => decide (q = (crits.map (fun c => (scoreOf c).getD 0)).sum)
        | none => false
      else true)
  | _ => true

/-- The claim-level consistency relation at a breakdown item. -/
def itemHolds (it : Json) : Bool :=
  match it.getField "sections" with
  | some (.arr secs) => secs.all sectionHolds
  | _ => true

/-- The claim-level score-tree consistency relation of a whole document. -/
def scoreRelationsHold (j : Json) : Bool :=
  match j.getField "breakdown" with
  | some (.arr items) => items.all itemHolds
  | _ => true

/-- The valid (PDF) inputs of a batch call, index-aligned with their company
names and website URLs. -/
def valid_inputs (files : List (UploadFile α)) (company_names website_urls : List String) :
    List (BatchTask α) :=
  ((files.zip (company_names.zip website_urls)).filter
      (fun p => p.1.contentType = "application/pdf")).map
    (fun p => ⟨p.1.content, p.1.filename, p.2.1, p.2.2⟩)

/-- A generation capability answering every model with the same text. -/
def genAlwaysText (t : String) : String → Except String String := fun _ => .ok t

/-- A generation capability failing on the first fallback model only. -/
def genFailFlash (t : String) : String → Except String String :=
  fun m => if m = "gemini-1.5-flash-latest" then .error "503 Service Unavailable" else .ok t

/-- A generation capability whose every call raises. -/
def genAlwaysFail : String → Except String String := fun _ => .error "503 Service Unavailable"

/-- A `json.loads` stand-in accepting exactly the empty JSON object. -/
def loadsEmptyObj : String → Except String Json :=
  fun s => if s = "\x7b\x7d" then .ok (Json.obj []) else .error "Expecting value: line 1 column 1 (char 0)"

/-- A `json.loads` stand-in on which every parse fails. -/
def loadsReject : String → Except String Json :=
  fun _ => .error "Expecting value: line 1 column 1 (char 0)"

/-- A `json.loads` stand-in producing a payload whose `breakdown` is a bare
number, on which the totals computation raises. -/
def loadsBreakdownNum : String → Except String Json :=
  fun _ => .ok (Json.obj [("breakdown", Json.num 5)])

/-- A pypdf capability whose every call raises. -/
def readPdfFail : String → Except String (List (Option String)) :=
  fun _ => .error "EOF marker not found"

/-- A per-task generation capability whose every call raises. -/
def genForFail : BatchTask String → String → Except String String :=
  fun _ _ => .error "503 Service Unavailable"

/-- A concrete PDF upload used in batch witnesses. -/
def pdfFileA : UploadFile String := ⟨"application/pdf", "a.pdf", "bytes-a"⟩

/-- A concrete non-PDF upload used in batch witnesses. -/
def txtFileB : UploadFile String := ⟨"text/plain", "b.txt", "bytes-b"⟩

/-- A breakdown entry that the id-scan of the aggregator passes over without
raising: a dict whose `id` field, when present and a string, differs from
`which` (a missing or non-string id compares unequal without raising). -/
def dictWithoutId (which : String) : Json → Bool
  | .obj kvs => match lookupKV kvs "id" with
    | some (.str s) => decide (s ≠ which)
    | _ => true
  | _ => false

theorem round2_zero : round2 0 = 0 := by
  norm_num [round2, roundHalfEven]

theorem lookupKV_setKV_ne (kvs : List (String × Json)) (key k : String) (v : Json)
    (h : k ≠ key) : lookupKV (setKV kvs key v) k = lookupKV kvs k := by
  induction kvs with
  | nil => simp [setKV, lookupKV, Ne.symm h]
  | cons kv rest ih =>
    obtain ⟨k1, v1⟩ := kv
    by_cases hk : k1 = key
    · subst hk
      simp [setKV, lookupKV, Ne.symm h]
    · simp [setKV, lookupKV, hk, ih]

theorem listIsPrefix_append (p r : List Char) : listIsPrefix p (p ++ r) = true := by
  induction p with
  | nil => simp [listIsPrefix]
  | cons c cs ih => simp [listIsPrefix, ih]

theorem pyStartsWith_append (p s : String) : pyStartsWith (p ++ s) p = true := by
  simp [pyStartsWith, String.data_append, listIsPrefix_append]

theorem append_ne_empty_left (a b : String) (h : a.length ≠ 0) : a ++ b ≠ "" := by
  intro hc
  apply h
  have hl := congrArg String.length hc
  rw [String.length_append] at hl
  have hz : ("" : String).length = 0 := rfl
  omega

theorem compute_obj_nil : compute_totals_value (Json.obj []) = .ok zeroTotalsJson := by
  simp [compute_totals_value, Json.getKey, lookupKV, Json.iterate, find_breakdown,
    sum_field, collect_criteria, bind, Except.bind, pure, Except.pure, round2_zero,
    zeroTotalsJson]

theorem calc_obj_nil : calculate_final_scores (Json.obj []) = .ok emptyTotalsDoc := by
  simp [calculate_final_scores, calculate_final_scores_body, compute_obj_nil,
    Json.setItem, setKV, bind, Except.bind, emptyTotalsDoc]

theorem value_for_sum_mkScored_score (sc : Option ℚ) (mx : ℚ) :
    value_for_sum (mkScored sc mx) "score" = .ok (sc.getD 0) := by
  rcases sc with _ | q
  · simp [value_for_sum, mkScored, Json.getKey, lookupKV, Json.truthy, bind, Except.bind]
  · by_cases hq : q = 0 <;>
      simp [value_for_sum, mkScored, Json.getKey, lookupKV, Json.truthy, hq, bind, Except.bind]

theorem value_for_sum_mkScored_max (sc : Option ℚ) (mx : ℚ) :
    value_for_sum (mkScored sc mx) "max_score" = .ok mx := by
  by_cases hm : mx = 0 <;>
    rcases sc with _ | q <;>
      simp [value_for_sum, mkScored, Json.getKey, lookupKV, Json.truthy, hm, bind, Except.bind]

theorem sum_field_mkScored_score (l : List (Option ℚ × ℚ)) :
    sum_field (l.map (fun p => mkScored p.1 p.2)) "score" = .ok (rawScoreSum l) := by
  induction l with
  | nil => simp [sum_field, rawScoreSum]
  | cons p rest ih =>
    simp [sum_field, value_for_sum_mkScored_score, ih, rawScoreSum, bind, Except.bind]

theorem sum_field_mkScored_max (l : List (Option ℚ × ℚ)) :
    sum_field (l.map (fun p => mkScored p.1 p.2)) "max_score" = .ok (rawMaxSum l) := by
  induction l with
  | nil => simp [sum_field, rawMaxSum]
  | cons p rest ih =>
    simp [sum_field, value_for_sum_mkScored_max, ih, rawMaxSum, bind, Except.bind]

theorem collect_criteria_mk (ms : List (List (Option ℚ × ℚ))) :
    collect_criteria (ms.map mkMediaSection)
      = .ok ((ms.flatten).map (fun p => mkScored p.1 p.2)) := by
  induction ms with
  | nil => simp [collect_criteria]
  | cons c rest ih =>
    simp [collect_criteria, mkMediaSection, Json.getKey, lookupKV, Json.iterate, ih,
      bind, Except.bind]

theorem compute_mkScoreDoc (rs : List (Option ℚ × ℚ)) (ms : List (List (Option ℚ × ℚ))) :
    compute_totals_value (mkScoreDoc rs ms) = .ok (Json.obj
      [("report", Json.num (round2 (weightedPart (rawScoreSum rs) (rawMaxSum rs) 60))),
       ("media", Json.num (round2 (weightedPart (rawScoreSum ms.flatten) (rawMaxSum ms.flatten) 40))),
       ("final", Json.num (round2 (weightedPart (rawScoreSum rs) (rawMaxSum rs) 60
          + weightedPart (rawScoreSum ms.flatten) (rawMaxSum ms.flatten) 40)))]) := by
  have hs := sum_field_mkScored_score (ms.flatten)
  have hm := sum_field_mkScored_max (ms.flatten)
  rw [List.map_flatten] at hs hm
  simp [compute_totals_value, mkScoreDoc, mkBreakdown, Json.getKey, lookupKV, Json.iterate,
    find_breakdown, sum_field_mkScored_score, sum_field_mkScored_max, collect_criteria_mk,
    hs, hm, weightedPart, bind, Except.bind, pure, Except.pure]

theorem roundHalfEven_intCast (m : ℤ) : roundHalfEven (m : ℚ) = m := by
  norm_num [roundHalfEven, Int.floor_intCast]

theorem round2_intCast (m : ℤ) : round2 (m : ℚ) = m := by
  have h : ((m : ℚ)) * 100 = ((m * 100 : ℤ) : ℚ) := by push_cast; ring
  rw [round2, h, roundHalfEven_intCast]
  push_cast
  ring

/-- C1: on every score document of the canonical payload shape, the aggregator
sums `score` (absent counting as 0) and `max_score` over the direct sections
of the `"report"` breakdown item and over the criteria one level under every
section of the `"media"` item, scales report by 60 and media by 40 (zero when
the corresponding maximum is not positive), stores `report`, `media` and
`final = report_scaled + media_scaled` rounded to two decimal places, and in
particular `report_raw=60, report_max=100, media_raw=19, media_max=19` yields
`report=36.0, media=40.0, final=76.0`. -/
theorem c1_weighted_totals :
    (∀ (rs : List (Option ℚ × ℚ)) (ms : List (List (Option ℚ × ℚ))),
      calculate_final_scores (mkScoreDoc rs ms) = .ok (Json.obj
        [("breakdown", mkBreakdown rs ms),
         ("totals", Json.obj
           [("report", Json.num (round2 (weightedPart (rawScoreSum rs) (rawMaxSum rs) 60))),
            ("media", Json.num (round2 (weightedPart (rawScoreSum ms.flatten) (rawMaxSum ms.flatten) 40))),
            ("final", Json.num (round2 (weightedPart (rawScoreSum rs) (rawMaxSum rs) 60
               + weightedPart (rawScoreSum ms.flatten) (rawMaxSum ms.flatten) 40)))])]))
    ∧ calculate_final_scores (mkScoreDoc [(some 60, 100)] [[(some 19, 19)]]) = .ok (Json.obj
        [("breakdown", mkBreakdown [(some 60, 100)] [[(some 19, 19)]]),
         ("totals", Json.obj
           [("report", Json.num 36), ("media", Json.num 40), ("final", Json.num 76)])]) := by
  have hgen : ∀ (rs : List (Option ℚ × ℚ)) (ms : List (List (Option ℚ × ℚ))),
      calculate_final_scores (mkScoreDoc rs ms) = .ok (Json.obj
        [("breakdown", mkBreakdown rs ms),
         ("totals", Json.obj
           [("report", Json.num (round2 (weightedPart (rawScoreSum rs) (rawMaxSum rs) 60))),
            ("media", Json.num (round2 (weightedPart (rawScoreSum ms.flatten) (rawMaxSum ms.flatten) 40))),
            ("final", Json.num (round2 (weightedPart (rawScoreSum rs) (rawMaxSum rs) 60
               + weightedPart (rawScoreSum ms.flatten) (rawMaxSum ms.flatten) 40)))])]) := by
    intro rs ms
    have hc := compute_mkScoreDoc rs ms
    rw [mkScoreDoc] at hc
    simp [calculate_final_scores, calculate_final_scores_body, hc,
      mkScoreDoc, Json.setItem, setKV, bind, Except.bind]
  refine ⟨hgen, ?_⟩
  have h36 : round2 36 = 36 := by simpa using round2_intCast 36
  have h40 : round2 40 = 40 := by simpa using round2_intCast 40
  have h76 : round2 76 = 76 := by simpa using round2_intCast 76
  rw [hgen]
  norm_num [rawScoreSum, rawMaxSum, weightedPart, h36, h40, h76]

/-- C5 counterexample: on a structurally absent input document (the empty
dict, which has no `breakdown`), the aggregator does not yield null totals as
claimed — it succeeds with the numeric totals `report=0.0, media=0.0,
final=0.0` produced by the zero-denominator rule. -/
theorem c5_structurally_absent_counterexample :
    calculate_final_scores (Json.obj []) = .ok (Json.obj
      [("totals", Json.obj
        [("report", Json.num 0), ("media", Json.num 0), ("final", Json.num 0)])])
    ∧ Json.obj [("report", Json.num 0), ("media", Json.num 0), ("final", Json.num 0)]
        ≠ Json.null := by
  refine ⟨calc_obj_nil, ?_⟩
  intro h
  exact Json.noConfusion h

theorem lookupKV_setKV_self (kvs : List (String × Json)) (key : String) (v : Json) :
    lookupKV (setKV kvs key v) key = some v := by
  induction kvs with
  | nil => simp [setKV, lookupKV]
  | cons kv rest ih =>
    obtain ⟨k1, v1⟩ := kv
    by_cases hk : k1 = key
    · subst hk
      simp [setKV, lookupKV]
    · simp [setKV, lookupKV, hk, ih]

theorem find_breakdown_no_match (which : String) (items : List Json)
    (h : ∀ it ∈ items, dictWithoutId which it = true) :
    find_breakdown which items = .ok (Json.obj []) := by
  induction items with
  | nil => rfl
  | cons it rest ih =>
    have hit := h it (List.mem_cons_self _ _)
    have hrest := ih (fun g hg => h g (List.mem_cons_of_mem _ hg))
    cases it with
    | obj kvs1 =>
      cases hl : lookupKV kvs1 "id" with
      | none => simp [find_breakdown, Json.getKey, hl, bind, Except.bind, hrest]
      | some j =>
        cases j with
        | str s =>
          have hs : s ≠ which := by
            simp [dictWithoutId, hl] at hit
            exact hit
          simp [find_breakdown, Json.getKey, hl, bind, Except.bind, hs, hrest]
        | null => simp [find_breakdown, Json.getKey, hl, bind, Except.bind, hrest]
        | bool b => simp [find_breakdown, Json.getKey, hl, bind, Except.bind, hrest]
        | num q => simp [find_breakdown, Json.getKey, hl, bind, Except.bind, hrest]
        | arr xs => simp [find_breakdown, Json.getKey, hl, bind, Except.bind, hrest]
        | obj kvs2 => simp [find_breakdown, Json.getKey, hl, bind, Except.bind, hrest]
    | null => simp [dictWithoutId] at hit
    | bool b => simp [dictWithoutId] at hit
    | num q => simp [dictWithoutId] at hit
    | str s => simp [dictWithoutId] at hit
    | arr xs => simp [dictWithoutId] at hit

theorem compute_totals_value_ok_shape (j t : Json)
    (h : compute_totals_value j = .ok t) :
    ∃ a b c : ℚ, t = Json.obj
      [("report", Json.num a), ("media", Json.num b), ("final", Json.num c)] := by
  simp only [compute_totals_value, bind, Except.bind] at h
  repeat' split at h
  all_goals
    first
      | exact Except.noConfusion h
      | (cases h; exact ⟨_, _, _, rfl⟩)

/-- C5 (amended): on a dict input whose `breakdown` key is absent, or whose
`breakdown` is a sequence of dict items none of which carries the expected
id, the totals computation succeeds and the aggregator stores the numeric
zero totals produced by the zero-denominator rule; and a returned document
carries `totals = None` exactly when the totals computation raises (e.g. on
a non-dict breakdown entry), the exception handler then storing `None`. -/
theorem c5_totals_on_absent_or_raise (kvs : List (String × Json)) :
    (lookupKV kvs "breakdown" = none →
      calculate_final_scores (Json.obj kvs)
        = .ok (Json.obj (setKV kvs "totals" zeroTotalsJson)))
    ∧ (∀ items : List Json, lookupKV kvs "breakdown" = some (Json.arr items) →
        (∀ it ∈ items, dictWithoutId "report" it = true) →
        (∀ it ∈ items, dictWithoutId "media" it = true) →
        calculate_final_scores (Json.obj kvs)
          = .ok (Json.obj (setKV kvs "totals" zeroTotalsJson)))
    ∧ (∀ e, compute_totals_value (Json.obj kvs) = .error e →
        calculate_final_scores (Json.obj kvs)
          = .ok (Json.obj (setKV kvs "totals" Json.null)))
    ∧ (∀ res, calculate_final_scores (Json.obj kvs) = .ok res →
        (res.getField "totals" = some Json.null
          ↔ ∃ e, compute_totals_value (Json.obj kvs) = .error e)) := by
  refine ⟨?_, ?_, ?_, ?_⟩
  · intro h
    have hc : compute_totals_value (Json.obj kvs) = .ok zeroTotalsJson := by
      simp [compute_totals_value, Json.getKey, h, lookupKV, Json.iterate, find_breakdown,
        sum_field, collect_criteria, bind, Except.bind, round2_zero, zeroTotalsJson]
    simp [calculate_final_scores, calculate_final_scores_body, hc, Json.setItem,
      bind, Except.bind]
  · intro items h hrep hmed
    have hfr := find_breakdown_no_match "report" items hrep
    have hfm := find_breakdown_no_match "media" items hmed
    have hc : compute_totals_value (Json.obj kvs) = .ok zeroTotalsJson := by
      simp [compute_totals_value, Json.getKey, h, Json.iterate, hfr, hfm, lookupKV,
        sum_field, collect_criteria, bind, Except.bind, round2_zero, zeroTotalsJson]
    simp [calculate_final_scores, calculate_final_scores_body, hc, Json.setItem,
      bind, Except.bind]
  · intro e he
    simp [calculate_final_scores, calculate_final_scores_body, he, Json.setItem,
      bind, Except.bind]
  · intro res hres
    cases hc : compute_totals_value (Json.obj kvs) with
    | ok t =>
      obtain ⟨a, b, c, rfl⟩ := compute_totals_value_ok_shape (Json.obj kvs) t hc
      simp [calculate_final_scores, calculate_final_scores_body, hc, Json.setItem,
        bind, Except.bind] at hres
      constructor
      · intro hnull
        exfalso
        rw [← hres] at hnull
        simp [Json.getField, lookupKV_setKV_self] at hnull
      · rintro ⟨e, he⟩
        exact Except.noConfusion he
    | error e =>
      simp [calculate_final_scores, calculate_final_scores_body, hc, Json.setItem,
        bind, Except.bind] at hres
      constructor
      · intro _
        exact ⟨e, rfl⟩
      · intro _
        rw [← hres]
        simp [Json.getField, lookupKV_setKV_self]

theorem c5_totals_on_absent_or_raise_witness :
    calculate_final_scores (Json.obj []) = .ok (Json.obj (setKV [] "totals" zeroTotalsJson))
    ∧ calculate_final_scores
        (Json.obj [("breakdown", Json.arr [Json.obj [("id", Json.str "other")]])])
        = .ok (Json.obj (setKV [("breakdown", Json.arr [Json.obj [("id", Json.str "other")]])]
            "totals" zeroTotalsJson))
    ∧ calculate_final_scores (Json.obj [("breakdown", Json.num 5)])
        = .ok (Json.obj (setKV [("breakdown", Json.num 5)] "totals" Json.null))
    ∧ ((Json.obj [("breakdown", Json.arr [Json.num 5]), ("totals", Json.null)]).getField
          "totals" = some Json.null
        ↔ ∃ e, compute_totals_value (Json.obj [("breakdown", Json.arr [Json.num 5])])
            = .error e) := by
  refine ⟨(c5_totals_on_absent_or_raise []).1 rfl, ?_, ?_, ?_⟩
  · exact (c5_totals_on_absent_or_raise
        [("breakdown", Json.arr [Json.obj [("id", Json.str "other")]])]).2.1
      [Json.obj [("id", Json.str "other")]] rfl
      (by intro it hit; rw [List.mem_singleton.mp hit]; rfl)
      (by intro it hit; rw [List.mem_singleton.mp hit]; rfl)
  · exact (c5_totals_on_absent_or_raise [("breakdown", Json.num 5)]).2.2.1
      (.typeError "object is not iterable") rfl
  · exact (c5_totals_on_absent_or_raise [("breakdown", Json.arr [Json.num 5])]).2.2.2
      (Json.obj [("breakdown", Json.arr [Json.num 5]), ("totals", Json.null)]) rfl

/-- C8: a payload accepted by the normalizer passes to the aggregator
unchanged, and aggregation only (re)writes the `totals` key: every other key
— in particular `breakdown`, hence every `score`/`max_score` value and the
criterion/section sum relations — is preserved exactly as received. -/
theorem c8_aggregation_frame (loads : String → Except String Json) (raw : String)
    (kvs : List (String × Json)) (h : parse_ai_response loads raw = .ok (Json.obj kvs)) :
    ∃ t, calculate_final_scores (Json.obj kvs) = .ok (Json.obj (setKV kvs "totals" t))
      ∧ (∀ k, k ≠ "totals" → lookupKV (setKV kvs "totals" t) k = lookupKV kvs k)
      ∧ scoreRelationsHold (Json.obj (setKV kvs "totals" t))
          = scoreRelationsHold (Json.obj kvs) := by
  have hrel : ∀ t k, k ≠ "totals" → lookupKV (setKV kvs "totals" t) k = lookupKV kvs k :=
    fun t k hk => lookupKV_setKV_ne kvs "totals" k t hk
  have hrel2 : ∀ t, scoreRelationsHold (Json.obj (setKV kvs "totals" t))
      = scoreRelationsHold (Json.obj kvs) := by
    intro t
    simp [scoreRelationsHold, Json.getField,
      lookupKV_setKV_ne kvs "totals" "breakdown" t (by decide)]
  cases hc : compute_totals_value (Json.obj kvs) with
  | ok t0 =>
    exact ⟨t0, by simp [calculate_final_scores, calculate_final_scores_body, hc,
      Json.setItem, bind, Except.bind], hrel t0, hrel2 t0⟩
  | error e =>
    exact ⟨Json.null, by simp [calculate_final_scores, calculate_final_scores_body, hc,
      Json.setItem, bind, Except.bind], hrel _, hrel2 _⟩

theorem c8_aggregation_frame_witness :
    ∃ t, calculate_final_scores (Json.obj []) = .ok (Json.obj (setKV [] "totals" t))
      ∧ (∀ k, k ≠ "totals" → lookupKV (setKV [] "totals" t) k = lookupKV [] k)
      ∧ scoreRelationsHold (Json.obj (setKV [] "totals" t))
          = scoreRelationsHold (Json.obj []) :=
  c8_aggregation_frame loadsEmptyObj "\x7b\x7d" [] rfl

theorem count_fallback_le_one (m : String) : FALLBACK_MODELS.count m ≤ 1 := by
  rcases eq_or_ne m "gemini-1.5-flash-latest" with h1 | h1
  · subst h1; decide
  · rcases eq_or_ne m "gemini-1.5-pro-latest" with h2 | h2
    · subst h2; decide
    · simp [FALLBACK_MODELS, List.count_cons, List.count_nil, beq_iff_eq, h1, h2]

/-- C3: the fallback invoker tries the configured model identifiers strictly
in order — its attempt trace is always a take-prefix of `FALLBACK_MODELS` and
calls each identifier at most once — and it returns immediately on the first
attempt that passes structural parsing: a first-model success attempts
nothing further, and after a first-model failure the second model is
attempted exactly once and its success ends the loop. -/
theorem c3_fallback_order (gen : String → Except String String)
    (loads : String → Except String Json) (company : String) :
    (∃ k, (call_gemini_traced gen loads company).1 = FALLBACK_MODELS.take k)
    ∧ (∀ m, ((call_gemini_traced gen loads company).1).count m ≤ 1)
    ∧ (∀ r, attempt_model gen loads "gemini-1.5-flash-latest" = .ok r →
        call_gemini_traced gen loads company = (["gemini-1.5-flash-latest"], r))
    ∧ (∀ e r, attempt_model gen loads "gemini-1.5-flash-latest" = .error e →
        attempt_model gen loads "gemini-1.5-pro-latest" = .ok r →
        call_gemini_traced gen loads company
          = (["gemini-1.5-flash-latest", "gemini-1.5-pro-latest"], r)) := by
  have hcount : ∀ tr : List String, (∃ k, tr = FALLBACK_MODELS.take k) →
      ∀ m, tr.count m ≤ 1 := by
    rintro tr ⟨k, rfl⟩ m
    exact le_trans ((List.take_sublist _ _).count_le m) (count_fallback_le_one m)
  cases h1 : attempt_model gen loads "gemini-1.5-flash-latest" with
  | ok r1 =>
    have htr : call_gemini_traced gen loads company = (["gemini-1.5-flash-latest"], r1) := by
      simp [call_gemini_traced, call_gemini_loop, FALLBACK_MODELS, h1]
    have hpre : ∃ k, (call_gemini_traced gen loads company).1 = FALLBACK_MODELS.take k :=
      ⟨1, by rw [htr]; rfl⟩
    refine ⟨hpre, hcount _ hpre, ?_, ?_⟩
    · intro r hr
      cases hr
      exact htr
    · intro e r he _
      exact Except.noConfusion he
  | error e1 =>
    cases h2 : attempt_model gen loads "gemini-1.5-pro-latest" with
    | ok r2 =>
      have htr : call_gemini_traced gen loads company
          = (["gemini-1.5-flash-latest", "gemini-1.5-pro-latest"], r2) := by
        simp [call_gemini_traced, call_gemini_loop, FALLBACK_MODELS, h1, h2]
      have hpre : ∃ k, (call_gemini_traced gen loads company).1 = FALLBACK_MODELS.take k :=
        ⟨2, by rw [htr]; rfl⟩
      refine ⟨hpre, hcount _ hpre, ?_, ?_⟩
      · intro r hr
        exact Except.noConfusion hr
      · intro e r he hr
        cases hr
        exact htr
    | error e2 =>
      have htr : call_gemini_traced gen loads company
          = (["gemini-1.5-flash-latest", "gemini-1.5-pro-latest"], all_failed_doc company e2) := by
        simp [call_gemini_traced, call_gemini_loop, FALLBACK_MODELS, h1, h2]
      have hpre : ∃ k, (call_gemini_traced gen loads company).1 = FALLBACK_MODELS.take k :=
        ⟨2, by rw [htr]; rfl⟩
      refine ⟨hpre, hcount _ hpre, ?_, ?_⟩
      · intro r hr
        exact Except.noConfusion hr
      · intro e r he hr
        exact Except.noConfusion hr

theorem c3_fallback_order_witness :
    call_gemini_traced (genAlwaysText "\x7b\x7d") loadsEmptyObj "ACME"
      = (["gemini-1.5-flash-latest"], emptyTotalsDoc)
    ∧ call_gemini_traced (genFailFlash "\x7b\x7d") loadsEmptyObj "ACME"
      = (["gemini-1.5-flash-latest", "gemini-1.5-pro-latest"], emptyTotalsDoc) := by
  have hclean : cleanResponseText "\x7b\x7d" = "\x7b\x7d" := rfl
  have hok : attempt_model (genAlwaysText "\x7b\x7d") loadsEmptyObj "gemini-1.5-flash-latest"
      = .ok emptyTotalsDoc := by
    simp [attempt_model, genAlwaysText, parse_ai_response, hclean, loadsEmptyObj, calc_obj_nil]
  have hko : attempt_model (genFailFlash "\x7b\x7d") loadsEmptyObj "gemini-1.5-flash-latest"
      = .error "503 Service Unavailable" := by
    simp [attempt_model, genFailFlash]
  have hok2 : attempt_model (genFailFlash "\x7b\x7d") loadsEmptyObj "gemini-1.5-pro-latest"
      = .ok emptyTotalsDoc := by
    simp [attempt_model, genFailFlash, parse_ai_response, hclean, loadsEmptyObj, calc_obj_nil]
  exact ⟨(c3_fallback_order (genAlwaysText "\x7b\x7d") loadsEmptyObj "ACME").2.2.1
      emptyTotalsDoc hok,
    (c3_fallback_order (genFailFlash "\x7b\x7d") loadsEmptyObj "ACME").2.2.2
      "503 Service Unavailable" emptyTotalsDoc hko hok2⟩

/-- C4 counterexample: a payload with no `breakdown` sequence at all — the
empty JSON object — is not rejected by the normalizer: the fallback invoker
accepts it on the first model and returns it (with computed totals) as the
successful scoring result, refuting the claim that only payloads carrying the
`"report"`/`"media"` breakdown shape are accepted as structurally valid. -/
theorem c4_shape_unvalidated_counterexample :
    call_gemini_for_scoring_sync (genAlwaysText "\x7b\x7d") loadsEmptyObj "ACME"
      = Json.obj [("totals", zeroTotalsJson)]
    ∧ (Json.obj [("totals", zeroTotalsJson)]).getField "breakdown" = none := by
  have hclean : cleanResponseText "\x7b\x7d" = "\x7b\x7d" := rfl
  have h1 : attempt_model (genAlwaysText "\x7b\x7d") loadsEmptyObj "gemini-1.5-flash-latest"
      = .ok emptyTotalsDoc := by
    simp [attempt_model, genAlwaysText, parse_ai_response, hclean, loadsEmptyObj, calc_obj_nil]
  constructor
  · have := calc_obj_nil
    simp [call_gemini_for_scoring_sync, call_gemini_traced, call_gemini_loop,
      FALLBACK_MODELS, h1, emptyTotalsDoc]
  · simp [Json.getField, lookupKV]

/-- C4 (amended): the normalizer validates nothing but JSON well-formedness —
it strips code-fence markup and parses; a JSON parse failure is recorded as
`JSON 解析失敗 - …` and treated as a failed attempt for that model identifier
(the fallback loop advances), while any successfully parsed payload,
regardless of its breakdown content, is returned as the successful result
provided the totals computation completes. -/
theorem c4_parse_only_validation (gen : String → Except String String)
    (loads : String → Except String Json) (company m text last_error : String)
    (rest : List String) :
    (∀ e, gen m = .ok text → loads (cleanResponseText text) = .error e →
      call_gemini_loop gen loads company (m :: rest) last_error
        = (m :: (call_gemini_loop gen loads company rest ("JSON 解析失敗 - " ++ e)).1,
           (call_gemini_loop gen loads company rest ("JSON 解析失敗 - " ++ e)).2))
    ∧ (∀ j r, gen m = .ok text → loads (cleanResponseText text) = .ok j →
        calculate_final_scores j = .ok r →
        call_gemini_loop gen loads company (m :: rest) last_error = ([m], r)) := by
  constructor
  · intro e hg hl
    simp [call_gemini_loop, attempt_model, hg, parse_ai_response, hl]
  · intro j r hg hl hc
    simp [call_gemini_loop, attempt_model, hg, parse_ai_response, hl, hc]

theorem c4_parse_only_validation_witness :
    call_gemini_loop (genAlwaysText "nope") loadsReject "ACME"
      ("gemini-1.5-flash-latest" :: ["gemini-1.5-pro-latest"]) "未知的 AI 錯誤"
      = ("gemini-1.5-flash-latest" ::
          (call_gemini_loop (genAlwaysText "nope") loadsReject "ACME"
            ["gemini-1.5-pro-latest"]
            ("JSON 解析失敗 - " ++ "Expecting value: line 1 column 1 (char 0)")).1,
         (call_gemini_loop (genAlwaysText "nope") loadsReject "ACME"
            ["gemini-1.5-pro-latest"]
            ("JSON 解析失敗 - " ++ "Expecting value: line 1 column 1 (char 0)")).2)
    ∧ call_gemini_loop (genAlwaysText "\x7b\x7d") loadsEmptyObj "ACME"
        ("gemini-1.5-flash-latest" :: []) "未知的 AI 錯誤"
      = (["gemini-1.5-flash-latest"], emptyTotalsDoc) :=
  ⟨(c4_parse_only_validation (genAlwaysText "nope") loadsReject "ACME"
      "gemini-1.5-flash-latest" "nope" "未知的 AI 錯誤" ["gemini-1.5-pro-latest"]).1
      "Expecting value: line 1 column 1 (char 0)" rfl rfl,
   (c4_parse_only_validation (genAlwaysText "\x7b\x7d") loadsEmptyObj "ACME"
      "gemini-1.5-flash-latest" "\x7b\x7d" "未知的 AI 錯誤" []).2
      (Json.obj []) emptyTotalsDoc rfl rfl calc_obj_nil⟩

/-- C2 counterexample: an aggregation failure — a parsed payload whose
`breakdown` is a bare number, making the totals computation raise — is
returned by the pipeline with `totals = None` but with no `overview_comment`
at all (and no `company`, `strengths`, … keys): not a fully-formed
ScoringResult with a non-empty human-readable failure description. -/
theorem c2_aggregation_failure_counterexample :
    process_single_file (.ok [some "hello"]) (genAlwaysText "x") loadsBreakdownNum
        "f.pdf" "ACME" "https://x"
      = Json.obj [("breakdown", Json.num 5), ("totals", Json.null)]
    ∧ (Json.obj [("breakdown", Json.num 5), ("totals", Json.null)]).getField
        "overview_comment" = none := by
  constructor
  · rfl
  · simp [Json.getField, lookupKV]

/-- C2 (amended): the per-document pipeline is total (modelled as a total
function), and on the extraction-failure and all-models-exhausted paths it
returns the fully-formed degraded result dictionary with `totals = None` and
a non-empty `overview_comment`, the exhausted case carrying the most recent
underlying error; an aggregation failure inside a successful attempt,
however, only nulls `totals` on the otherwise unchanged model payload, whose
`overview_comment` may be absent or empty. -/
theorem c2_degraded_results (gen : String → Except String String)
    (loads : String → Except String Json) (filename company url : String) :
    (∀ e : String,
      process_single_file (.error e) gen loads filename company url
          = degraded_doc company (pdf_read_error_message filename)
        ∧ (degraded_doc company (pdf_read_error_message filename)).getField "totals"
            = some Json.null
        ∧ pdf_read_error_message filename ≠ "")
    ∧ (∀ (pages : Except String (List (Option String))) (e1 e2 : String),
        pyStartsWith (extract_text_from_pdf_sync pages filename) "錯誤：" = false →
        attempt_model gen loads "gemini-1.5-flash-latest" = .error e1 →
        attempt_model gen loads "gemini-1.5-pro-latest" = .error e2 →
        process_single_file pages gen loads filename company url = all_failed_doc company e2
          ∧ (all_failed_doc company e2).getField "overview_comment"
              = some (Json.str ("所有備案 AI 模型皆嘗試失敗。最終錯誤: " ++ e2))
          ∧ ("所有備案 AI 模型皆嘗試失敗。最終錯誤: " ++ e2) ≠ ""
          ∧ (all_failed_doc company e2).getField "totals" = some Json.null) := by
  constructor
  · intro e
    have hmsg : extract_text_from_pdf_sync (.error e) filename
        = pdf_read_error_message filename := rfl
    have hstart : pyStartsWith (pdf_read_error_message filename) "錯誤：" = true := by
      rw [pdf_read_error_message]
      exact pyStartsWith_append "錯誤：" _
    refine ⟨?_, ?_, ?_⟩
    · simp [process_single_file, process_single_file_traced, hmsg, hstart]
    · simp [degraded_doc, Json.getField, lookupKV]
    · rw [pdf_read_error_message]
      exact append_ne_empty_left _ _ (by decide)
  · intro pages e1 e2 hfalse h1 h2
    refine ⟨?_, ?_, ?_, ?_⟩
    · simp [process_single_file, process_single_file_traced, hfalse, call_gemini_traced,
        call_gemini_loop, FALLBACK_MODELS, h1, h2]
    · simp [all_failed_doc, Json.getField, lookupKV]
    · exact append_ne_empty_left _ _ (by decide)
    · simp [all_failed_doc, Json.getField, lookupKV]

theorem c2_degraded_results_witness :
    (process_single_file (.error "EOF marker not found") genAlwaysFail loadsReject
          "f.pdf" "ACME" "https://x"
        = degraded_doc "ACME" (pdf_read_error_message "f.pdf")
      ∧ (degraded_doc "ACME" (pdf_read_error_message "f.pdf")).getField "totals"
          = some Json.null
      ∧ pdf_read_error_message "f.pdf" ≠ "")
    ∧ (process_single_file (.ok [some "hello"]) genAlwaysFail loadsReject
          "f.pdf" "ACME" "https://x"
        = all_failed_doc "ACME" "503 Service Unavailable"
      ∧ (all_failed_doc "ACME" "503 Service Unavailable").getField "overview_comment"
          = some (Json.str ("所有備案 AI 模型皆嘗試失敗。最終錯誤: " ++ "503 Service Unavailable"))
      ∧ ("所有備案 AI 模型皆嘗試失敗。最終錯誤: " ++ "503 Service Unavailable") ≠ ""
      ∧ (all_failed_doc "ACME" "503 Service Unavailable").getField "totals" = some Json.null) :=
  ⟨(c2_degraded_results genAlwaysFail loadsReject "f.pdf" "ACME" "https://x").1
      "EOF marker not found",
   (c2_degraded_results genAlwaysFail loadsReject "f.pdf" "ACME" "https://x").2
      (.ok [some "hello"]) "503 Service Unavailable" "503 Service Unavailable" rfl rfl rfl⟩

/-- C9: extraction failure is signalled in-band by a sentinel: whenever pypdf
raises, the extractor returns a string beginning with `"錯誤："`, and the
pipeline classifies any extracted text beginning with `"錯誤："` as an
extraction failure, returning the degraded result with `totals = None`
without invoking any model — so a readable document whose own
whitespace-normalised text begins with the sentinel is treated the same
way. -/
theorem c9_sentinel_in_band (gen : String → Except String String)
    (loads : String → Except String Json) (filename company url : String) :
    (∀ e : String,
      pyStartsWith (extract_text_from_pdf_sync (.error e) filename) "錯誤：" = true)
    ∧ (∀ pages : Except String (List (Option String)),
        pyStartsWith (extract_text_from_pdf_sync pages filename) "錯誤：" = true →
        process_single_file_traced pages gen loads filename company url
          = ([], degraded_doc company (extract_text_from_pdf_sync pages filename))
        ∧ (degraded_doc company (extract_text_from_pdf_sync pages filename)).getField
            "totals" = some Json.null) := by
  constructor
  · intro e
    show pyStartsWith (pdf_read_error_message filename) "錯誤：" = true
    rw [pdf_read_error_message]
    exact pyStartsWith_append "錯誤：" _
  · intro pages hstart
    refine ⟨?_, ?_⟩
    · simp [process_single_file_traced, hstart]
    · simp [degraded_doc, Json.getField, lookupKV]

theorem c9_sentinel_in_band_witness :
    pyStartsWith (extract_text_from_pdf_sync (.error "x") "f.pdf") "錯誤：" = true
    ∧ (process_single_file_traced (.ok [some "錯誤：測試"]) genAlwaysFail loadsReject
          "f.pdf" "ACME" "https://x"
        = ([], degraded_doc "ACME"
            (extract_text_from_pdf_sync (.ok [some "錯誤：測試"]) "f.pdf"))
      ∧ (degraded_doc "ACME"
          (extract_text_from_pdf_sync (.ok [some "錯誤：測試"]) "f.pdf")).getField
            "totals" = some Json.null) :=
  ⟨(c9_sentinel_in_band genAlwaysFail loadsReject "f.pdf" "ACME" "https://x").1 "x",
   (c9_sentinel_in_band genAlwaysFail loadsReject "f.pdf" "ACME" "https://x").2
      (.ok [some "錯誤：測試"]) rfl⟩

theorem build_tasks_aux_shift {α : Type} (c u : String) (cns urls : List String) (i : Nat)
    (files : List (UploadFile α)) :
    build_tasks_aux (c :: cns) (u :: urls) (i + 1) files = build_tasks_aux cns urls i files := by
  induction files generalizing i with
  | nil => simp [build_tasks_aux]
  | cons f rest ih => simp [build_tasks_aux, List.getD_cons_succ, ih]

theorem build_tasks_eq_valid_inputs {α : Type} (files : List (UploadFile α))
    (cns urls : List String) (h1 : files.length ≤ cns.length)
    (h2 : files.length ≤ urls.length) :
    build_tasks files cns urls = valid_inputs files cns urls := by
  induction files generalizing cns urls with
  | nil => simp [build_tasks, build_tasks_aux, valid_inputs]
  | cons f rest ih =>
    cases cns with
    | nil => simp at h1
    | cons c cns' =>
      cases urls with
      | nil => simp at h2
      | cons u urls' =>
        have h1' : rest.length ≤ cns'.length := by simpa using h1
        have h2' : rest.length ≤ urls'.length := by simpa using h2
        have hshift := build_tasks_aux_shift (α := α) c u cns' urls' 0 rest
        have hih := ih cns' urls' h1' h2'
        rw [build_tasks, valid_inputs] at hih
        by_cases hpdf : f.contentType = "application/pdf" <;>
          simp [build_tasks, build_tasks_aux, hpdf, valid_inputs, hshift, hih]

theorem build_tasks_aux_nil_of_no_pdf {α : Type} (cns urls : List String) (i : Nat)
    (files : List (UploadFile α))
    (h : ∀ f ∈ files, f.contentType ≠ "application/pdf") :
    build_tasks_aux cns urls i files = [] := by
  induction files generalizing i with
  | nil => simp [build_tasks_aux]
  | cons f rest ih =>
    simp only [build_tasks_aux, if_neg (h f (List.mem_cons_self _ _))]
    exact ih (i + 1) (fun g hg => h g (List.mem_cons_of_mem _ hg))

theorem build_tasks_aux_ne_nil_of_pdf {α : Type} (cns urls : List String) (i : Nat)
    (files : List (UploadFile α))
    (h : ∃ f ∈ files, f.contentType = "application/pdf") :
    build_tasks_aux cns urls i files ≠ [] := by
  induction files generalizing i with
  | nil => simp at h
  | cons f rest ih =>
    by_cases hpdf : f.contentType = "application/pdf"
    · simp [build_tasks_aux, hpdf]
    · obtain ⟨g, hg, hgp⟩ := h
      rcases List.mem_cons.mp hg with rfl | hg'
      · exact absurd hgp hpdf
      · simp only [build_tasks_aux, if_neg hpdf]
        exact ih (i + 1) ⟨g, hg', hgp⟩

theorem valid_inputs_length {α : Type} (files : List (UploadFile α)) (cns urls : List String)
    (h1 : files.length ≤ cns.length) (h2 : files.length ≤ urls.length) :
    (valid_inputs files cns urls).length
      = (files.filter (fun f => f.contentType = "application/pdf")).length := by
  induction files generalizing cns urls with
  | nil => simp [valid_inputs]
  | cons f rest ih =>
    cases cns with
    | nil => simp at h1
    | cons c cns' =>
      cases urls with
      | nil => simp at h2
      | cons u urls' =>
        have h1' : rest.length ≤ cns'.length := by simpa using h1
        have h2' : rest.length ≤ urls'.length := by simpa using h2
        have hih := ih cns' urls' h1' h2'
        rw [valid_inputs] at hih
        by_cases hpdf : f.contentType = "application/pdf" <;>
          simp [valid_inputs, List.filter_cons, hpdf, hih]

theorem scoring_batch_endpoint_eq {α : Type}
    (readPdf : α → Except String (List (Option String)))
    (genFor : BatchTask α → String → Except String String)
    (loads : String → Except String Json) (files : List (UploadFile α))
    (cns urls : List String) (h1 : files.length = cns.length)
    (h2 : cns.length = urls.length) :
    scoring_batch_endpoint readPdf genFor loads files cns urls
      = if (valid_inputs files cns urls).isEmpty then
          .error ⟨400, "未提供任何有效的 PDF 檔案。"⟩
        else .ok ((valid_inputs files cns urls).map (run_pipeline readPdf genFor loads)) := by
  have hv : build_tasks files cns urls = valid_inputs files cns urls :=
    build_tasks_eq_valid_inputs files cns urls (by omega) (by omega)
  by_cases he : (valid_inputs files cns urls).isEmpty
  · simp only [List.isEmpty_eq_true] at he
    simp [scoring_batch_endpoint, h1, h2, hv, he]
  · simp only [List.isEmpty_eq_true] at he
    simp [scoring_batch_endpoint, h1, h2, hv, he]

/-- C6: when the three input sequences have equal lengths and the batch call
returns a result list, that list has exactly one `ScoringResult` per
dispatched (valid PDF) input and its i-th element is the pipeline output for
the i-th valid input — the coordinator's fan-in (`asyncio.gather`, modelled
as an index-aligned map) reassembles results by original input index
regardless of completion order. -/
theorem c6_order_preserved {α : Type}
    (readPdf : α → Except String (List (Option String)))
    (genFor : BatchTask α → String → Except String String)
    (loads : String → Except String Json) (files : List (UploadFile α))
    (cns urls : List String) (h1 : files.length = cns.length)
    (h2 : cns.length = urls.length) (res : List Json)
    (hres : scoring_batch_endpoint readPdf genFor loads files cns urls = .ok res) :
    res.length = (valid_inputs files cns urls).length
    ∧ ∀ i : Nat, res[i]?
        = ((valid_inputs files cns urls)[i]?).map (run_pipeline readPdf genFor loads) := by
  rw [scoring_batch_endpoint_eq readPdf genFor loads files cns urls h1 h2] at hres
  by_cases he : (valid_inputs files cns urls).isEmpty
  · rw [if_pos he] at hres
    exact Except.noConfusion hres
  · rw [if_neg he] at hres
    cases hres
    constructor
    · exact List.length_map _ _
    · intro i
      exact List.getElem?_map _ _ _

theorem c6_order_preserved_witness :
    ([run_pipeline readPdfFail genForFail loadsReject
        ⟨"bytes-a", "a.pdf", "ACME", "https://x"⟩].length
      = (valid_inputs [pdfFileA] ["ACME"] ["https://x"]).length)
    ∧ ∀ i : Nat,
        [run_pipeline readPdfFail genForFail loadsReject
          ⟨"bytes-a", "a.pdf", "ACME", "https://x"⟩][i]?
          = ((valid_inputs [pdfFileA] ["ACME"] ["https://x"])[i]?).map
              (run_pipeline readPdfFail genForFail loadsReject) :=
  c6_order_preserved readPdfFail genForFail loadsReject [pdfFileA] ["ACME"] ["https://x"]
    rfl rfl
    [run_pipeline readPdfFail genForFail loadsReject ⟨"bytes-a", "a.pdf", "ACME", "https://x"⟩]
    rfl

/-- C7: with index-aligned inputs, a batch in which every document has a
non-PDF content type is rejected with the caller-visible 400 "no valid PDF
input" error before any pipeline output is produced, and dropped (non-PDF)
items never appear in the output: a successful result list has exactly one
element per PDF item of the batch. -/
theorem c7_no_valid_input {α : Type}
    (readPdf : α → Except String (List (Option String)))
    (genFor : BatchTask α → String → Except String String)
    (loads : String → Except String Json) (files : List (UploadFile α))
    (cns urls : List String) (h1 : files.length = cns.length)
    (h2 : cns.length = urls.length) :
    ((∀ f ∈ files, f.contentType ≠ "application/pdf") →
      scoring_batch_endpoint readPdf genFor loads files cns urls
        = .error ⟨400, "未提供任何有效的 PDF 檔案。"⟩)
    ∧ (∀ res, scoring_batch_endpoint readPdf genFor loads files cns urls = .ok res →
        res.length = (files.filter (fun f => f.contentType = "application/pdf")).length) := by
  constructor
  · intro hall
    have hnil : build_tasks files cns urls = [] :=
      build_tasks_aux_nil_of_no_pdf cns urls 0 files hall
    simp [scoring_batch_endpoint, h1, h2, hnil]
  · intro res hres
    rw [scoring_batch_endpoint_eq readPdf genFor loads files cns urls h1 h2] at hres
    by_cases he : (valid_inputs files cns urls).isEmpty
    · rw [if_pos he] at hres
      exact Except.noConfusion hres
    · rw [if_neg he] at hres
      cases hres
      rw [List.length_map]
      exact valid_inputs_length files cns urls (by omega) (by omega)

theorem c7_no_valid_input_witness :
    scoring_batch_endpoint readPdfFail genForFail loadsReject [txtFileB] ["ACME"] ["https://x"]
      = .error ⟨400, "未提供任何有效的 PDF 檔案。"⟩
    ∧ ([run_pipeline readPdfFail genForFail loadsReject
          ⟨"bytes-a", "a.pdf", "ACME", "https://x"⟩].length
        = ([pdfFileA].filter (fun f => f.contentType = "application/pdf")).length) :=
  ⟨(c7_no_valid_input readPdfFail genForFail loadsReject [txtFileB] ["ACME"] ["https://x"]
      rfl rfl).1
      (by intro f hf; rw [List.mem_singleton.mp hf]; decide),
   (c7_no_valid_input readPdfFail genForFail loadsReject [pdfFileA] ["ACME"] ["https://x"]
      rfl rfl).2
      [run_pipeline readPdfFail genForFail loadsReject ⟨"bytes-a", "a.pdf", "ACME", "https://x"⟩]
      rfl⟩

/-- C10: with index-aligned inputs, whenever at least one valid PDF input
remains after filtering, the gathered result list exists and has exactly one
element per dispatched task (every pipeline returns a result, never raises),
so the post-gather "all files failed, no results produced" 500 rejection
branch is unreachable. -/
theorem c10_500_unreachable {α : Type}
    (readPdf : α → Except String (List (Option String)))
    (genFor : BatchTask α → String → Except String String)
    (loads : String → Except String Json) (files : List (UploadFile α))
    (cns urls : List String) (h1 : files.length = cns.length)
    (h2 : cns.length = urls.length)
    (hsome : ∃ f ∈ files, f.contentType = "application/pdf") :
    scoring_batch_endpoint readPdf genFor loads files cns urls
      = .ok ((valid_inputs files cns urls).map (run_pipeline readPdf genFor loads))
    ∧ ((valid_inputs files cns urls).map (run_pipeline readPdf genFor loads)).length
        = (build_tasks files cns urls).length
    ∧ scoring_batch_endpoint readPdf genFor loads files cns urls
        ≠ .error ⟨500, "所有檔案處理失敗，未產生任何結果。請檢查後端日誌。"⟩ := by
  have hv : build_tasks files cns urls = valid_inputs files cns urls :=
    build_tasks_eq_valid_inputs files cns urls (by omega) (by omega)
  have hne : build_tasks files cns urls ≠ [] :=
    build_tasks_aux_ne_nil_of_pdf cns urls 0 files hsome
  have he : ¬(valid_inputs files cns urls).isEmpty := by
    rw [List.isEmpty_eq_true, ← hv]
    exact hne
  have hok : scoring_batch_endpoint readPdf genFor loads files cns urls
      = .ok ((valid_inputs files cns urls).map (run_pipeline readPdf genFor loads)) := by
    rw [scoring_batch_endpoint_eq readPdf genFor loads files cns urls h1 h2, if_neg he]
  refine ⟨hok, ?_, ?_⟩
  · rw [List.length_map, hv]
  · rw [hok]
    exact fun hc => Except.noConfusion hc

theorem c10_500_unreachable_witness :
    scoring_batch_endpoint readPdfFail genForFail loadsReject [pdfFileA, txtFileB]
        ["ACME", "Beta"] ["https://x", "https://y"]
      = .ok ((valid_inputs [pdfFileA, txtFileB] ["ACME", "Beta"] ["https://x", "https://y"]).map
          (run_pipeline readPdfFail genForFail loadsReject))
    ∧ ((valid_inputs [pdfFileA, txtFileB] ["ACME", "Beta"] ["https://x", "https://y"]).map
          (run_pipeline readPdfFail genForFail loadsReject)).length
        = (build_tasks [pdfFileA, txtFileB] ["ACME", "Beta"] ["https://x", "https://y"]).length
    ∧ scoring_batch_endpoint readPdfFail genForFail loadsReject [pdfFileA, txtFileB]
        ["ACME", "Beta"] ["https://x", "https://y"]
        ≠ .error ⟨500, "所有檔案處理失敗，未產生任何結果。請檢查後端日誌。"⟩ :=
  c10_500_unreachable readPdfFail genForFail loadsReject [pdfFileA, txtFileB]
    ["ACME", "Beta"] ["https://x", "https://y"] rfl rfl
    ⟨pdfFileA, List.mem_cons_self _ _, rfl⟩
